import Mathlib

/-!
Verification development for the Power BI report exporter
(`BiExporter.py`).  The script is embedded shallowly: every network
round trip is an oracle value supplied by the environment, machine time
is a fake clock measured in seconds, and the `asyncio` suspensions
advance that clock.  Each attempt of the retry loop consumes one
`AttemptEnv`; the run produces the returned value together with a
timestamped trace of the externally visible actions (POST submissions,
status GETs, retry sleeps, artifact GETs).
-/

namespace BiExporter

/-- Embedding of the `FileFormat` enum (lines 28-30 of the source). -/
inductive FileFormat where
  | PDF
  | PNG
deriving DecidableEq

/-- Value of a `FileFormat` member, as in Python `Enum.value`. -/
def FileFormat.value : FileFormat → String
  | .PDF => "PDF"
  | .PNG => "PNG"

/-- Embedding of the `ExportState` enum (lines 32-34 of the source). -/
inductive ExportState where
  | SUCCEEDED
  | FAILED
deriving DecidableEq

/-- Value of an `ExportState` member. -/
def ExportState.value : ExportState → String
  | .SUCCEEDED => "Succeeded"
  | .FAILED => "Failed"

/-- Python exceptions that can cross the functions of the script:
connection-level faults from aiohttp, `ClientResponseError` raised by
`raise_for_status`, `KeyError` from a missing dictionary key, and
`TypeError` from a membership test on `None`. -/
inductive Exc where
  | transportError (msg : String)
  | clientResponseError (statusCode : Nat) (message : String)
  | keyError (key : String)
  | typeError (msg : String)
deriving DecidableEq

/-- Outcome of one HTTP round trip as seen by the script: either a
connection-level fault, or a final response with an HTTP status code, a
reason phrase, and a deserialized body.  Redirects are consumed by the
client library, so a surfaced response carries the final status. -/
inductive NetResult (β : Type) where
  | fault (msg : String)
  | resp (statusCode : Nat) (reason : String) (body : β)

/-- Embedding of aiohttp `response.raise_for_status()`: raises
`ClientResponseError` exactly when the status code is at least 400. -/
def raise_for_status (statusCode : Nat) (reason : String) : Except Exc Unit :=
  if 400 ≤ statusCode then .error (.clientResponseError statusCode reason) else .ok ()

/-- JSON body sent by `post_export_request` (lines 79-87): the `format`
key is always present, `pageNames` and `urlFilter` are optional keys. -/
structure SubmitRequestBody where
  format : String
  pageNames : Option (List String)
  urlFilter : Option String
deriving DecidableEq

/-- Python truthiness of an optional list argument (`if page_names:`):
false for `None` and for the empty list. -/
def pyTruthyList (v : Option (List String)) : Bool :=
  match v with
  | none => false
  | some l => !l.isEmpty

/-- Python truthiness of an optional string argument (`if url_filter:`):
false for `None` and for the empty string. -/
def pyTruthyStr (v : Option String) : Bool :=
  match v with
  | none => false
  | some s => !s.isEmpty

/-- The `data` dictionary built at lines 79-87 of the source: `format`
always, `pageNames` and `urlFilter` only when the argument is truthy. -/
def post_export_data (file_format : FileFormat) (page_names : Option (List String))
    (url_filter : Option String) : SubmitRequestBody :=
  { format := file_format.value
    pageNames := if pyTruthyList page_names then page_names else none
    urlFilter := if pyTruthyStr url_filter then url_filter else none }

/-- Deserialized JSON body of the submit response: the `id` key may be
absent, in which case `result["id"]` raises `KeyError`. -/
structure SubmitResponseBody where
  id : Option String
deriving DecidableEq

/-- Embedding of `post_export_request` (lines 77-93): the POST outcome
is the oracle `net`; `raise_for_status` screens the response, then the
`id` field of the body becomes the export handle. -/
def post_export_request (net : NetResult SubmitResponseBody) : Except Exc String :=
  match net with
  | .fault m => .error (.transportError m)
  | .resp c reason body =>
    match raise_for_status c reason with
    | .error e => .error e
    | .ok _ =>
      match body.id with
      | some i => .ok i
      | none => .error (.keyError "id")

/-- Deserialized JSON body of a status poll (section 6 of the spec):
`status` is always present, the other keys are optional. -/
structure ExportStatus where
  status : String
  retryAfter : Option Nat := none
  resourceLocation : Option String := none
  reportName : Option String := none
  resourceFileExtension : Option String := none
deriving DecidableEq

/-- The membership test of line 103 of the source:
`result["status"] in [SUCCEEDED.value, FAILED.value]`. -/
def statusIsTerminal (s : String) : Bool :=
  decide (s = ExportState.SUCCEEDED.value ∨ s = ExportState.FAILED.value)

/-- Result of the poll sub-loop: a returned snapshot, the `None` of a
timeout, or a propagated exception. -/
inductive PollOutcome where
  | found (s : ExportStatus)
  | timedOut
  | raised (e : Exc)
deriving DecidableEq

/-- Embedding of the `while` loop of `poll_export_request`
(lines 95-106).  `polls i` is the outcome of the i-th status GET.  On
the fake clock the i-th GET happens `5 * i` seconds after sub-loop
entry (the loop sleeps 5 seconds after each non-terminal fetch), so the
`while` guard `time.time() - start_time < T` before the i-th fetch
reads `5 * i < T`.  The second component counts the status GETs issued
when the loop is entered at index 0.  The fuel argument only bounds the
recursion: with the fuel passed by `poll_export_request` it runs out
strictly after the guard has turned false, so the exhaustion branch
returns the same value the guard-false branch would. -/
def pollGo (polls : Nat → NetResult ExportStatus) (T : Nat) :
    Nat → Nat → PollOutcome × Nat
  | 0, i => (.timedOut, i)
  | fuel + 1, i =>
    if 5 * i < T then
      match polls i with
      | .fault m => (.raised (.transportError m), i + 1)
      | .resp c reason s =>
        match raise_for_status c reason with
        | .error e => (.raised e, i + 1)
        | .ok _ =>
          if statusIsTerminal s.status then (.found s, i + 1)
          else pollGo polls T fuel (i + 1)
    else (.timedOut, i)

/-- Embedding of `poll_export_request` (lines 95-106): the timeout is
`polling_timeout_minutes * 60` seconds and the loop starts at fetch
index 0. -/
def poll_export_request (polls : Nat → NetResult ExportStatus)
    (polling_timeout_minutes : Nat) : PollOutcome × Nat :=
  pollGo polls (polling_timeout_minutes * 60)
    (polling_timeout_minutes * 60 / 5 + 1) 0

/-- Wall-clock seconds spent inside the poll sub-loop, from its outcome
and its fetch count: a terminal snapshot or an exception surfaces at
the fetch that produced it (`5 * (n - 1)` seconds in); a timeout exits
after the sleep that follows the last non-terminal fetch (`5 * n`). -/
def pollElapsed : PollOutcome → Nat → Nat
  | .timedOut, n => 5 * n
  | _, n => 5 * (n - 1)

/-- Return value of `get_exported_file` (lines 114-117): content bytes
and the derived filename. -/
structure Artifact where
  content : List Nat
  filename : String
deriving DecidableEq

/-- Embedding of `get_exported_file` (lines 108-117): `KeyError` if
`resourceLocation` is absent (before any GET), then the artifact GET
(oracle `artifactNet`), `raise_for_status`, and the filename f-string,
which raises `KeyError` on a missing `reportName` or
`resourceFileExtension`. -/
def get_exported_file (artifactNet : NetResult (List Nat)) (st : ExportStatus) :
    Except Exc Artifact :=
  match st.resourceLocation with
  | none => .error (.keyError "resourceLocation")
  | some _ =>
    match artifactNet with
    | .fault m => .error (.transportError m)
    | .resp c reason content =>
      match raise_for_status c reason with
      | .error e => .error e
      | .ok _ =>
        match st.reportName with
        | none => .error (.keyError "reportName")
        | some nm =>
          match st.resourceFileExtension with
          | none => .error (.keyError "resourceFileExtension")
          | some ext => .ok ⟨content, nm ++ "." ++ ext⟩

/-- Kinds of externally visible actions of one invocation. -/
inductive EvKind where
  | submitPost
  | statusGet (exportId : String)
  | retrySleep (d : Nat)
  | artifactGet (loc : String)
deriving DecidableEq

/-- Timestamped externally visible action. -/
structure Ev where
  time : Nat
  kind : EvKind
deriving DecidableEq

/-- Time of the i-th status fetch of a poll sub-loop entered at `t0`. -/
def pollFetchTime (t0 i : Nat) : Nat := t0 + 5 * i

/-- Trace of the status GETs of one poll sub-loop entered at time `t0`
with export handle `eid`, issuing `n` fetches. -/
def pollEvs (t0 : Nat) (eid : String) (n : Nat) : List Ev :=
  (List.range n).map (fun i => ⟨pollFetchTime t0 i, .statusGet eid⟩)

/-- Environment of one attempt: the oracle outcomes of its POST, of its
status GETs (as a function of the export handle used in the GET URL and
of the fetch index), and of its artifact GET. -/
structure AttemptEnv where
  submitNet : NetResult SubmitResponseBody
  polls : String → Nat → NetResult ExportStatus
  artifactNet : NetResult (List Nat)

/-- Value an invocation of `export_power_bi_report` delivers to its
caller: the artifact dictionary, the `None` of line 65 or line 75, or a
propagated exception. -/
inductive ExportResult where
  | artifact (a : Artifact)
  | noResult
  | raised (e : Exc)
deriving DecidableEq

/-- `max_retries` of line 55. -/
def max_retries : Nat := 3

/-- Outcome of the body of one `for` iteration of
`export_power_bi_report` (lines 57-73), before the `except` policy is
applied: `success` is a `return` from inside the `try` (lines 65, 68),
`excO` is an exception reaching the `except` (with the events already
performed and the clock at the moment it is caught), `fall` is an
iteration end without `return` and without exception (the
`continue` of line 64, or the fall-through when the snapshot status
matches neither branch). -/
inductive StepOut where
  | success (r : ExportResult) (evsA : List Ev)
  | excO (e : Exc) (evsA : List Ev) (t2 : Nat)
  | fall (evsA : List Ev) (t2 : Nat)
deriving Inhabited

/-- Events performed by one attempt body. -/
def StepOut.evsA : StepOut → List Ev
  | .success _ l => l
  | .excO _ l _ => l
  | .fall l _ => l

/-- Embedding of the `try` body of one attempt (lines 57-68), entered
at fake-clock time `t`.  Line numbers refer to the source:
submit (58), poll (59), the `None`-or-Failed branch (61-65) where the
membership test `retryAfter in export` on the `None` of a timeout
raises `TypeError`, and the Succeeded branch (67-68). -/
def attemptStep (e : AttemptEnv) (Tmin t : Nat) : StepOut :=
  match post_export_request e.submitNet with
  | .error exc => .excO exc [⟨t, .submitPost⟩] t
  | .ok eid =>
    let pr := poll_export_request (e.polls eid) Tmin
    let evs : List Ev := ⟨t, .submitPost⟩ :: pollEvs t eid pr.2
    let t1 := t + pollElapsed pr.1 pr.2
    match pr.1 with
    | .raised exc => .excO exc evs t1
    | .timedOut =>
      .excO (.typeError "argument of type NoneType is not iterable") evs t1
    | .found s =>
      if s.status = ExportState.FAILED.value then
        match s.retryAfter with
        | some R =>
          .fall (⟨t, .submitPost⟩ :: (pollEvs t eid pr.2 ++ [⟨t1, .retrySleep R⟩]))
            (t1 + R)
        | none => .success .noResult evs
      else if s.status = ExportState.SUCCEEDED.value then
        match s.resourceLocation with
        | none => .excO (.keyError "resourceLocation") evs t1
        | some loc =>
          let evs2 : List Ev :=
            ⟨t, .submitPost⟩ :: (pollEvs t eid pr.2 ++ [⟨t1, .artifactGet loc⟩])
          match get_exported_file e.artifactNet s with
          | .ok art => .success (.artifact art) evs2
          | .error exc => .excO exc evs2 t1
      else .fall evs t1

/-- Embedding of the `for` loop of `export_power_bi_report`
(lines 55-75).  `r` is the number of attempts still available
(`max_retries - attempt`), `a` indexes the environment of the current
attempt, `t` is the fake clock.  An exception on the last available
attempt (`r = 0` after the pattern, i.e. `attempt == max_retries - 1`)
is re-raised (line 73); otherwise it is swallowed and the loop
proceeds.  Exhausting the loop returns `None` (line 75). -/
def runAttempts (env : Nat → AttemptEnv) (Tmin : Nat) :
    Nat → Nat → Nat → ExportResult × List Ev
  | 0, _, _ => (.noResult, [])
  | r + 1, a, t =>
    match attemptStep (env a) Tmin t with
    | .success res evsA => (res, evsA)
    | .excO exc evsA t2 =>
      if r = 0 then (.raised exc, evsA)
      else
        let rest := runAttempts env Tmin r (a + 1) t2
        (rest.1, evsA ++ rest.2)
    | .fall evsA t2 =>
      let rest := runAttempts env Tmin r (a + 1) t2
      (rest.1, evsA ++ rest.2)

/-- Embedding of `export_power_bi_report` (lines 53-75): three attempts
starting at attempt index 0 and fake-clock time 0. -/
def export_power_bi_report (env : Nat → AttemptEnv) (Tmin : Nat) :
    ExportResult × List Ev :=
  runAttempts env Tmin max_retries 0 0

/-- Whether an event is a POST submission. -/
def isSubmit (ev : Ev) : Bool :=
  match ev.kind with
  | .submitPost => true
  | _ => false

/-- Number of POST submissions in a trace. -/
def countSubmits (tr : List Ev) : Nat := tr.countP isSubmit

/-- Whether an event is an artifact GET. -/
def isArtifactGet (ev : Ev) : Bool :=
  match ev.kind with
  | .artifactGet _ => true
  | _ => false

/-- The artifact GETs of a trace, in order. -/
def artifactGets (tr : List Ev) : List Ev := tr.filter isArtifactGet

/-- Modelled from the spec: the discriminated error taxonomy of
sections 4.1 and 7 (`TransportError`, `AuthError`,
`ApiError{status, body}`). -/
inductive SpecError where
  | AuthError
  | ApiError (status : Nat) (body : String)
  | TransportError (msg : String)
deriving DecidableEq

/-- Modelled from the spec: classification of a raised exception into
the taxonomy of section 4.1 — connection faults are `TransportError`,
response errors with code 401 or 403 are `AuthError`, other response
errors are `ApiError` carrying the status and the message. -/
def specClassify : Exc → Option SpecError
  | .transportError m => some (.TransportError m)
  | .clientResponseError c m =>
    if c = 401 ∨ c = 403 then some .AuthError else some (.ApiError c m)
  | _ => none

/-- Property of one attempt environment: the submission succeeds and
the poll sub-loop ends on a `Failed` snapshot carrying a `retryAfter`
duration, the only exception-free way the loop continues to a further
attempt. -/
def attemptFailsRetryable (e : AttemptEnv) (Tmin : Nat) : Prop :=
  ∃ eid s n R, post_export_request e.submitNet = .ok eid ∧
    poll_export_request (e.polls eid) Tmin = (.found s, n) ∧
    s.status = ExportState.FAILED.value ∧ s.retryAfter = some R

/-- Number of status GETs in a trace. -/
def countStatusGets (tr : List Ev) : Nat :=
  tr.countP (fun ev =>
    match ev.kind with
    | .statusGet _ => true
    | _ => false)

/-- Snapshot of a Failed export carrying a retryAfter duration. -/
def stFailedRetry : ExportStatus := { status := "Failed", retryAfter := some 7 }

/-- Snapshot of a Failed export with no retryAfter. -/
def stFailedFinal : ExportStatus := { status := "Failed" }

/-- Snapshot of a Succeeded export with locator, name and extension. -/
def stSucceededW : ExportStatus :=
  { status := "Succeeded", resourceLocation := some "L", reportName := some "Sales",
    resourceFileExtension := some "png" }

/-- Environment where every status poll reports a running export, so
every attempt times out. -/
def envTimeoutW : Nat → AttemptEnv := fun _ =>
  { submitNet := .resp 200 "OK" ⟨some "E1"⟩
    polls := fun _ _ => .resp 200 "OK" { status := "Running" }
    artifactNet := .resp 200 "OK" [] }

/-- Environment where every attempt ends Failed with retryAfter 7. -/
def envRetryW : Nat → AttemptEnv := fun _ =>
  { submitNet := .resp 200 "OK" ⟨some "E1"⟩
    polls := fun _ _ => .resp 200 "OK" stFailedRetry
    artifactNet := .resp 200 "OK" [] }

/-- Environment where the first poll ends Failed with no retryAfter. -/
def envFailedFinalW : Nat → AttemptEnv := fun _ =>
  { submitNet := .resp 200 "OK" ⟨some "E1"⟩
    polls := fun _ _ => .resp 200 "OK" stFailedFinal
    artifactNet := .resp 200 "OK" [] }

/-- Environment matching the concrete scenario of section 8 of the
spec: first poll Pending, second poll Succeeded, artifact fetch
delivers two bytes. -/
def envSucceedW : Nat → AttemptEnv := fun _ =>
  { submitNet := .resp 200 "OK" ⟨some "E1"⟩
    polls := fun _ i =>
      if i = 0 then .resp 200 "OK" { status := "Pending" }
      else .resp 200 "OK" stSucceededW
    artifactNet := .resp 200 "OK" [7, 7] }

/-- Environment whose submission hits a connection fault. -/
def envFaultW : Nat → AttemptEnv := fun _ =>
  { submitNet := .fault "connection reset"
    polls := fun _ _ => .resp 200 "OK" { status := "Succeeded" }
    artifactNet := .resp 200 "OK" [] }

/-- Poll oracle whose every fetch is terminal. -/
def pollsTerminalW : Nat → NetResult ExportStatus := fun _ =>
  .resp 200 "OK" { status := "Succeeded" }

/-- Poll oracle with one Pending fetch followed by terminal fetches. -/
def pollsMixedW : Nat → NetResult ExportStatus := fun i =>
  if i = 0 then .resp 200 "OK" { status := "Pending" }
  else .resp 200 "OK" { status := "Succeeded" }

/-! Helper lemmas. -/

/-- Unfolding of the poll sub-loop when the guard is false. -/
theorem pollGo_deadline (polls : Nat → NetResult ExportStatus) (T fuel i : Nat)
    (h : ¬ 5 * i < T) : pollGo polls T (fuel + 1) i = (.timedOut, i) := by
  simp [pollGo, h]

/-- Unfolding of the poll sub-loop on a terminal in-window fetch. -/
theorem pollGo_terminal (polls : Nat → NetResult ExportStatus)
    (T fuel i c : Nat) (reason : String) (s : ExportStatus)
    (hT : 5 * i < T) (hp : polls i = .resp c reason s) (hc : c < 400)
    (hs : statusIsTerminal s.status = true) :
    pollGo polls T (fuel + 1) i = (.found s, i + 1) := by
  simp [pollGo, hT, hp, raise_for_status, Nat.not_le.mpr hc, hs]

/-- Unfolding of the poll sub-loop on a non-terminal in-window fetch. -/
theorem pollGo_nonterminal (polls : Nat → NetResult ExportStatus)
    (T fuel i c : Nat) (reason : String) (s : ExportStatus)
    (hT : 5 * i < T) (hp : polls i = .resp c reason s) (hc : c < 400)
    (hs : statusIsTerminal s.status = false) :
    pollGo polls T (fuel + 1) i = pollGo polls T fuel (i + 1) := by
  simp [pollGo, hT, hp, raise_for_status, Nat.not_le.mpr hc, hs]

/-- A snapshot handed back by the poll sub-loop passed the terminal
membership test of line 103. -/
theorem pollGo_found_terminal (polls : Nat → NetResult ExportStatus) (T : Nat) :
    ∀ fuel i s n, pollGo polls T fuel i = (.found s, n) →
      statusIsTerminal s.status = true := by
  intro fuel
  induction fuel with
  | zero => intro i s n h; simp [pollGo] at h
  | succ f ih =>
    intro i s n h
    rw [pollGo] at h
    split at h
    · cases hp : polls i with
      | fault m => rw [hp] at h; simp at h
      | resp c reason s2 =>
        rw [hp] at h
        dsimp only at h
        rcases hr : raise_for_status c reason with e | u
        · rw [hr] at h; simp at h
        · rw [hr] at h
          dsimp only at h
          split at h
          next hterm =>
            have hs2 : s2 = s := PollOutcome.found.inj (congrArg Prod.fst h)
            exact hs2 ▸ hterm
          next => exact ih (i + 1) s n h
    · simp at h

/-- Every fetch of the poll sub-loop is issued strictly before the
timeout: the fetch count never exceeds an index whose fetch time would
reach the deadline. -/
theorem pollGo_fetches_in_window (polls : Nat → NetResult ExportStatus) (T : Nat) :
    ∀ fuel i po n, pollGo polls T fuel i = (po, n) → i ≤ n ∧
      ∀ j, i ≤ j → j < n → 5 * j < T := by
  intro fuel
  induction fuel with
  | zero =>
    intro i po n h
    rw [pollGo] at h
    obtain ⟨_, rfl⟩ := Prod.mk.injEq .. ▸ h
    exact ⟨Nat.le_refl i, fun j hij hjn => absurd hjn (Nat.not_lt.mpr hij)⟩
  | succ f ih =>
    intro i po n h
    rw [pollGo] at h
    split at h
    next hT =>
      have inwin : ∀ (m : Nat), i + 1 ≤ m → (∀ j, i + 1 ≤ j → j < m → 5 * j < T) →
          i ≤ m ∧ ∀ j, i ≤ j → j < m → 5 * j < T := by
        intro m h1 h2
        refine ⟨Nat.le_trans (Nat.le_succ i) h1, fun j hij hjm => ?_⟩
        rcases Nat.eq_or_lt_of_le hij with rfl | hlt
        · exact hT
        · exact h2 j hlt hjm
      cases hp : polls i with
      | fault m =>
        rw [hp] at h
        obtain ⟨_, rfl⟩ := Prod.mk.injEq .. ▸ h
        exact inwin (i + 1) (Nat.le_refl _) (fun j hij hjn => absurd hjn (Nat.not_lt.mpr hij))
      | resp c reason s2 =>
        rw [hp] at h
        dsimp only at h
        rcases hr : raise_for_status c reason with e | u
        · rw [hr] at h
          dsimp only at h
          obtain ⟨_, rfl⟩ := Prod.mk.injEq .. ▸ h
          exact inwin (i + 1) (Nat.le_refl _) (fun j hij hjn => absurd hjn (Nat.not_lt.mpr hij))
        · rw [hr] at h
          dsimp only at h
          split at h
          · obtain ⟨_, rfl⟩ := Prod.mk.injEq .. ▸ h
            exact inwin (i + 1) (Nat.le_refl _) (fun j hij hjn => absurd hjn (Nat.not_lt.mpr hij))
          · obtain ⟨h1, h2⟩ := ih (i + 1) po n h
            exact inwin n h1 h2
    next =>
      obtain ⟨_, rfl⟩ := Prod.mk.injEq .. ▸ h
      exact ⟨Nat.le_refl i, fun j hij hjn => absurd hjn (Nat.not_lt.mpr hij)⟩

/-- Splitting the poll trace at the last fetch. -/
theorem pollEvs_succ (t0 : Nat) (eid : String) (n : Nat) :
    pollEvs t0 eid (n + 1) = pollEvs t0 eid n ++ [⟨pollFetchTime t0 n, .statusGet eid⟩] := by
  simp [pollEvs, List.range_succ]

/-- Every event of a poll trace is a status GET with the given handle. -/
theorem pollEvs_mem_kind (t0 : Nat) (eid : String) (n : Nat) (ev : Ev)
    (h : ev ∈ pollEvs t0 eid n) : ev.kind = .statusGet eid := by
  simp only [pollEvs, List.mem_map, List.mem_range] at h
  obtain ⟨i, _, rfl⟩ := h
  rfl

/-- A poll trace contains no POST submissions. -/
theorem countSubmits_pollEvs (t0 : Nat) (eid : String) (n : Nat) :
    countSubmits (pollEvs t0 eid n) = 0 := by
  induction n with
  | zero => rfl
  | succ m ih =>
    rw [pollEvs_succ]
    simp [countSubmits, List.countP_append, isSubmit] at ih ⊢
    exact ih

/-- A poll trace contains no artifact GETs. -/
theorem artifactGets_pollEvs (t0 : Nat) (eid : String) (n : Nat) :
    artifactGets (pollEvs t0 eid n) = [] := by
  induction n with
  | zero => rfl
  | succ m ih =>
    rw [pollEvs_succ]
    simp [artifactGets, List.filter_append, isArtifactGet] at ih ⊢
    exact ih

/-- Unfolding of the attempt body on a failed submission. -/
theorem attemptStep_submit_error (e : AttemptEnv) (Tmin t : Nat) (exc : Exc)
    (h : post_export_request e.submitNet = .error exc) :
    attemptStep e Tmin t = .excO exc [⟨t, .submitPost⟩] t := by
  simp [attemptStep, h]

/-- Unfolding of the attempt body when the poll raises. -/
theorem attemptStep_poll_raised (e : AttemptEnv) (Tmin t : Nat) (eid : String)
    (exc : Exc) (n : Nat)
    (hsub : post_export_request e.submitNet = .ok eid)
    (hpoll : poll_export_request (e.polls eid) Tmin = (.raised exc, n)) :
    attemptStep e Tmin t =
      .excO exc (⟨t, .submitPost⟩ :: pollEvs t eid n) (t + 5 * (n - 1)) := by
  simp [attemptStep, hsub, hpoll, pollElapsed]

/-- Unfolding of the attempt body on a poll timeout: the membership
test on `None` raises `TypeError`. -/
theorem attemptStep_timeout (e : AttemptEnv) (Tmin t : Nat) (eid : String) (n : Nat)
    (hsub : post_export_request e.submitNet = .ok eid)
    (hpoll : poll_export_request (e.polls eid) Tmin = (.timedOut, n)) :
    attemptStep e Tmin t =
      .excO (.typeError "argument of type NoneType is not iterable")
        (⟨t, .submitPost⟩ :: pollEvs t eid n) (t + 5 * n) := by
  simp [attemptStep, hsub, hpoll, pollElapsed]

/-- Unfolding of the attempt body on a Failed snapshot carrying a
retryAfter duration: sleep and continue. -/
theorem attemptStep_failedRetry (e : AttemptEnv) (Tmin t : Nat) (eid : String)
    (s : ExportStatus) (n R : Nat)
    (hsub : post_export_request e.submitNet = .ok eid)
    (hpoll : poll_export_request (e.polls eid) Tmin = (.found s, n))
    (hst : s.status = ExportState.FAILED.value)
    (hra : s.retryAfter = some R) :
    attemptStep e Tmin t =
      .fall (⟨t, .submitPost⟩ :: (pollEvs t eid n ++ [⟨t + 5 * (n - 1), .retrySleep R⟩]))
        (t + 5 * (n - 1) + R) := by
  simp [attemptStep, hsub, hpoll, hst, hra, pollElapsed]

/-- Unfolding of the attempt body on a Failed snapshot with no
retryAfter: return `None` at once. -/
theorem attemptStep_failedFinal (e : AttemptEnv) (Tmin t : Nat) (eid : String)
    (s : ExportStatus) (n : Nat)
    (hsub : post_export_request e.submitNet = .ok eid)
    (hpoll : poll_export_request (e.polls eid) Tmin = (.found s, n))
    (hst : s.status = ExportState.FAILED.value)
    (hra : s.retryAfter = none) :
    attemptStep e Tmin t = .success .noResult (⟨t, .submitPost⟩ :: pollEvs t eid n) := by
  simp [attemptStep, hsub, hpoll, hst, hra]

/-- Unfolding of the attempt body on a Succeeded snapshot whose
artifact fetch succeeds. -/
theorem attemptStep_succeeded (e : AttemptEnv) (Tmin t : Nat) (eid : String)
    (s : ExportStatus) (n c : Nat) (L nm ext reason : String) (bytes : List Nat)
    (hsub : post_export_request e.submitNet = .ok eid)
    (hpoll : poll_export_request (e.polls eid) Tmin = (.found s, n))
    (hst : s.status = ExportState.SUCCEEDED.value)
    (hL : s.resourceLocation = some L)
    (hnm : s.reportName = some nm)
    (hext : s.resourceFileExtension = some ext)
    (hart : e.artifactNet = .resp c reason bytes) (hc : c < 400) :
    attemptStep e Tmin t =
      .success (.artifact ⟨bytes, nm ++ "." ++ ext⟩)
        (⟨t, .submitPost⟩ :: (pollEvs t eid n ++ [⟨t + 5 * (n - 1), .artifactGet L⟩])) := by
  have hne : ExportState.SUCCEEDED.value ≠ ExportState.FAILED.value := by decide
  simp [attemptStep, hsub, hpoll, hst, hne, hL, get_exported_file, hart,
    raise_for_status, Nat.not_le.mpr hc, hnm, hext, pollElapsed]

/-- Prepending the submission event to a poll trace yields one
submission, regardless of a trailing non-submission event. -/
theorem countSubmits_attempt_shape (t0 : Nat) (eid : String) (n : Nat) :
    countSubmits (⟨t0, EvKind.submitPost⟩ :: pollEvs t0 eid n) = 1 ∧
    ∀ tfin k, isSubmit ⟨tfin, k⟩ = false →
      countSubmits (⟨t0, EvKind.submitPost⟩ :: (pollEvs t0 eid n ++ [⟨tfin, k⟩])) = 1 := by
  have h0 := countSubmits_pollEvs t0 eid n
  rw [countSubmits] at h0
  constructor
  · rw [countSubmits, List.countP_cons, h0]
    rfl
  · intro tfin k hk
    rw [countSubmits, List.countP_cons, List.countP_append, h0,
      List.countP_cons, List.countP_nil, hk]
    rfl

/-- First event of an attempt body is its POST submission at the entry
clock. -/
theorem attemptStep_evsA_head (e : AttemptEnv) (Tmin t : Nat) :
    ∃ tl, (attemptStep e Tmin t).evsA = ⟨t, EvKind.submitPost⟩ :: tl := by
  unfold attemptStep
  rcases post_export_request e.submitNet with exc | eid
  · exact ⟨[], rfl⟩
  · dsimp only
    rcases (poll_export_request (e.polls eid) Tmin).1 with s | _ | exc
    · dsimp only
      split
      · rcases s.retryAfter with _ | R
        · exact ⟨_, rfl⟩
        · exact ⟨_, rfl⟩
      · split
        · rcases s.resourceLocation with _ | loc
          · exact ⟨_, rfl⟩
          · dsimp only
            rcases get_exported_file e.artifactNet s with e2 | art
            · exact ⟨_, rfl⟩
            · exact ⟨_, rfl⟩
        · exact ⟨_, rfl⟩
    · exact ⟨_, rfl⟩
    · exact ⟨_, rfl⟩

/-- An attempt body performs exactly one POST submission. -/
theorem attemptStep_countSubmits (e : AttemptEnv) (Tmin t : Nat) :
    countSubmits (attemptStep e Tmin t).evsA = 1 := by
  unfold attemptStep
  rcases post_export_request e.submitNet with exc | eid
  · rfl
  · dsimp only
    rcases (poll_export_request (e.polls eid) Tmin).1 with s | _ | exc
    · dsimp only
      split
      · rcases s.retryAfter with _ | R
        · exact (countSubmits_attempt_shape t eid _).1
        · exact (countSubmits_attempt_shape t eid _).2 _ _ rfl
      · split
        · rcases s.resourceLocation with _ | loc
          · exact (countSubmits_attempt_shape t eid _).1
          · dsimp only
            rcases get_exported_file e.artifactNet s with e2 | art
            · exact (countSubmits_attempt_shape t eid _).2 _ _ rfl
            · exact (countSubmits_attempt_shape t eid _).2 _ _ rfl
        · exact (countSubmits_attempt_shape t eid _).1
    · exact (countSubmits_attempt_shape t eid _).1
    · exact (countSubmits_attempt_shape t eid _).1

/-- Unfolding of the attempt loop on a returning attempt body. -/
theorem runAttempts_step_success (env : Nat → AttemptEnv) (Tmin r a t : Nat)
    (res : ExportResult) (evsA : List Ev)
    (h : attemptStep (env a) Tmin t = .success res evsA) :
    runAttempts env Tmin (r + 1) a t = (res, evsA) := by
  simp [runAttempts, h]

/-- Unfolding of the attempt loop when the last available attempt
catches an exception: it is re-raised (line 73). -/
theorem runAttempts_step_excO_last (env : Nat → AttemptEnv) (Tmin a t : Nat)
    (exc : Exc) (evsA : List Ev) (t2 : Nat)
    (h : attemptStep (env a) Tmin t = .excO exc evsA t2) :
    runAttempts env Tmin 1 a t = (.raised exc, evsA) := by
  simp [runAttempts, h]

/-- Unfolding of the attempt loop when a non-final attempt catches an
exception: it is swallowed and the loop proceeds. -/
theorem runAttempts_step_excO_notlast (env : Nat → AttemptEnv) (Tmin r a t : Nat)
    (exc : Exc) (evsA : List Ev) (t2 : Nat)
    (h : attemptStep (env a) Tmin t = .excO exc evsA t2) :
    runAttempts env Tmin (r + 2) a t =
      ((runAttempts env Tmin (r + 1) (a + 1) t2).1,
        evsA ++ (runAttempts env Tmin (r + 1) (a + 1) t2).2) := by
  simp [runAttempts, h]

/-- Unfolding of the attempt loop when the attempt body falls through
to the next iteration without exception. -/
theorem runAttempts_step_fall (env : Nat → AttemptEnv) (Tmin r a t : Nat)
    (evsA : List Ev) (t2 : Nat)
    (h : attemptStep (env a) Tmin t = .fall evsA t2) :
    runAttempts env Tmin (r + 1) a t =
      ((runAttempts env Tmin r (a + 1) t2).1,
        evsA ++ (runAttempts env Tmin r (a + 1) t2).2) := by
  simp [runAttempts, h]

/-- When at least one attempt is available, the first event of the run
is a POST submission at the entry clock. -/
theorem runAttempts_head (env : Nat → AttemptEnv) (Tmin r a t : Nat) :
    ∃ tl, (runAttempts env Tmin (r + 1) a t).2 = ⟨t, EvKind.submitPost⟩ :: tl := by
  obtain ⟨tl0, h0⟩ := attemptStep_evsA_head (env a) Tmin t
  cases h : attemptStep (env a) Tmin t with
  | success res evsA =>
    rw [runAttempts_step_success env Tmin r a t res evsA h]
    rw [h] at h0
    exact ⟨tl0, h0⟩
  | excO exc evsA t2 =>
    rw [h] at h0
    simp only [StepOut.evsA] at h0
    cases r with
    | zero =>
      rw [runAttempts_step_excO_last env Tmin a t exc evsA t2 h]
      exact ⟨tl0, h0⟩
    | succ r2 =>
      rw [runAttempts_step_excO_notlast env Tmin r2 a t exc evsA t2 h]
      exact ⟨tl0 ++ (runAttempts env Tmin (r2 + 1) (a + 1) t2).2, by simp [h0]⟩
  | fall evsA t2 =>
    rw [h] at h0
    simp only [StepOut.evsA] at h0
    rw [runAttempts_step_fall env Tmin r a t evsA t2 h]
    exact ⟨tl0 ++ (runAttempts env Tmin r (a + 1) t2).2, by simp [h0]⟩

/-- Submissions in a concatenation of traces. -/
theorem countSubmits_append (l1 l2 : List Ev) :
    countSubmits (l1 ++ l2) = countSubmits l1 + countSubmits l2 :=
  List.countP_append ..

/-- The run never performs more submissions than it has attempts. -/
theorem runAttempts_countSubmits_le (env : Nat → AttemptEnv) (Tmin : Nat) :
    ∀ r a t, countSubmits (runAttempts env Tmin r a t).2 ≤ r := by
  intro r
  induction r with
  | zero => intro a t; simp [runAttempts, countSubmits]
  | succ m ih =>
    intro a t
    have h1 := attemptStep_countSubmits (env a) Tmin t
    cases h : attemptStep (env a) Tmin t with
    | success res evsA =>
      rw [runAttempts_step_success env Tmin m a t res evsA h]
      rw [h] at h1
      simp only [StepOut.evsA] at h1
      show countSubmits evsA ≤ m + 1
      omega
    | excO exc evsA t2 =>
      rw [h] at h1
      simp only [StepOut.evsA] at h1
      cases m with
      | zero =>
        rw [runAttempts_step_excO_last env Tmin a t exc evsA t2 h]
        show countSubmits evsA ≤ 1
        omega
      | succ m2 =>
        rw [runAttempts_step_excO_notlast env Tmin m2 a t exc evsA t2 h]
        have h2 := ih (a + 1) t2
        show countSubmits (evsA ++ (runAttempts env Tmin (m2 + 1) (a + 1) t2).2) ≤ m2 + 2
        rw [countSubmits_append]
        omega
    | fall evsA t2 =>
      rw [h] at h1
      simp only [StepOut.evsA] at h1
      rw [runAttempts_step_fall env Tmin m a t evsA t2 h]
      have h2 := ih (a + 1) t2
      show countSubmits (evsA ++ (runAttempts env Tmin m (a + 1) t2).2) ≤ m + 1
      rw [countSubmits_append]
      omega

/-- Handles carried by status GETs of a trace headed by a submission:
if every non-submit event is either a status GET with handle `eid` or
an event of another kind, every status GET of the trace carries `eid`. -/
theorem statusGet_handle_aux (t : Nat) (eid : String) (rest : List Ev)
    (hrest : ∀ ev ∈ rest,
      ev.kind = EvKind.statusGet eid ∨ ∀ x, ev.kind ≠ EvKind.statusGet x) :
    ∀ ev ∈ (⟨t, EvKind.submitPost⟩ : Ev) :: rest,
      ∀ x, ev.kind = EvKind.statusGet x → x = eid := by
  intro ev hev x hx
  rcases List.mem_cons.mp hev with rfl | hev2
  · cases hx
  · rcases hrest ev hev2 with hk | hk
    · rw [hk] at hx
      exact (EvKind.statusGet.inj hx).symm
    · exact absurd hx (hk x)

/-- The poll trace with one trailing non-status event satisfies the
side condition of `statusGet_handle_aux`. -/
theorem statusGet_handle_tail (t0 : Nat) (eid : String) (n tfin : Nat) (k : EvKind)
    (hk : ∀ x, k ≠ EvKind.statusGet x) :
    ∀ ev ∈ pollEvs t0 eid n ++ [(⟨tfin, k⟩ : Ev)],
      ev.kind = EvKind.statusGet eid ∨ ∀ x, ev.kind ≠ EvKind.statusGet x := by
  intro ev hev
  rcases List.mem_append.mp hev with hp | he
  · exact .inl (pollEvs_mem_kind t0 eid n ev hp)
  · rw [List.mem_singleton] at he
    subst he
    exact .inr hk

/-- All status GETs of one attempt body carry the handle returned by
the submission of that same attempt. -/
theorem attemptStep_statusGet_handle (e : AttemptEnv) (Tmin t : Nat) (eid : String)
    (hsub : post_export_request e.submitNet = .ok eid) :
    ∀ ev ∈ (attemptStep e Tmin t).evsA,
      ∀ x, ev.kind = EvKind.statusGet x → x = eid := by
  unfold attemptStep
  rw [hsub]
  dsimp only
  have hplain : ∀ ev ∈ pollEvs t eid (poll_export_request (e.polls eid) Tmin).2,
      ev.kind = EvKind.statusGet eid ∨ ∀ x, ev.kind ≠ EvKind.statusGet x :=
    fun ev hev => .inl (pollEvs_mem_kind t eid _ ev hev)
  rcases (poll_export_request (e.polls eid) Tmin).1 with s | _ | exc
  · dsimp only
    split
    · rcases s.retryAfter with _ | R
      · exact statusGet_handle_aux t eid _ hplain
      · exact statusGet_handle_aux t eid _
          (statusGet_handle_tail t eid _ _ _ (fun x hx => by cases hx))
    · split
      · rcases s.resourceLocation with _ | loc
        · exact statusGet_handle_aux t eid _ hplain
        · dsimp only
          rcases get_exported_file e.artifactNet s with e2 | art
          · exact statusGet_handle_aux t eid _
              (statusGet_handle_tail t eid _ _ _ (fun x hx => by cases hx))
          · exact statusGet_handle_aux t eid _
              (statusGet_handle_tail t eid _ _ _ (fun x hx => by cases hx))
      · exact statusGet_handle_aux t eid _ hplain
  · exact statusGet_handle_aux t eid _ hplain
  · exact statusGet_handle_aux t eid _ hplain

/-- Exhaustion induction: while every attempt ends Failed with a
retryAfter, the loop consumes all its attempts and returns `None`. -/
theorem runAttempts_all_retryable_noResult (env : Nat → AttemptEnv) (Tmin : Nat) :
    ∀ r a t, (∀ k, k < r → attemptFailsRetryable (env (a + k)) Tmin) →
      (runAttempts env Tmin r a t).1 = .noResult := by
  intro r
  induction r with
  | zero => intro a t _; rfl
  | succ m ih =>
    intro a t hall
    obtain ⟨eid, s, n, R, hsub, hpoll, hst, hra⟩ := hall 0 (Nat.succ_pos m)
    rw [Nat.add_zero] at hsub hpoll
    have hstep := attemptStep_failedRetry (env a) Tmin t eid s n R hsub hpoll hst hra
    have hrun := runAttempts_step_fall env Tmin m a t _ _ hstep
    rw [hrun]
    exact ih (a + 1) _ (fun k hk => by
      have hh := hall (k + 1) (Nat.succ_lt_succ hk)
      rwa [show a + (k + 1) = a + 1 + k by omega] at hh)

/-! Claim theorems and witnesses. -/

/-- C10: for every submission, the request body always contains the
format key, and contains the pageNames (respectively urlFilter) key if
and only if the supplied page_names (respectively url_filter) argument
is truthy — in particular an empty page-name list is omitted from the
body exactly as if no filter had been supplied. -/
theorem request_body_keys :
    (∀ f p u, (post_export_data f p u).format = f.value) ∧
    (∀ f p u, (post_export_data f p u).pageNames.isSome = pyTruthyList p) ∧
    (∀ f p u, (post_export_data f p u).urlFilter.isSome = pyTruthyStr u) ∧
    (∀ f u, post_export_data f (some []) u = post_export_data f none u) := by
  refine ⟨fun f p u => rfl, fun f p u => ?_, fun f p u => ?_, fun f u => ?_⟩
  · rcases p with _ | l
    · simp [post_export_data, pyTruthyList]
    · cases hb : pyTruthyList (some l) <;> simp [post_export_data, hb]
  · rcases u with _ | s
    · simp [post_export_data, pyTruthyStr]
    · cases hb : pyTruthyStr (some s) <;> simp [post_export_data, hb]
  · simp [post_export_data, pyTruthyList]

/-- C8: for every submission, on a 2xx response submit returns the
response body id field as the job handle; on an error response the
raised exception maps under the spec taxonomy to AuthError for 401 and
403 and to ApiError carrying the status for other error codes, and a
connection or timeout fault maps to TransportError. -/
theorem submit_handle_and_error_taxonomy :
    (∀ (body : SubmitResponseBody) (c : Nat) (reason hid : String),
      200 ≤ c → c < 300 → body.id = some hid →
      post_export_request (.resp c reason body) = .ok hid) ∧
    (∀ (body : SubmitResponseBody) (c : Nat) (reason : String),
      c = 401 ∨ c = 403 →
      ∃ e, post_export_request (.resp c reason body) = .error e ∧
        specClassify e = some .AuthError) ∧
    (∀ (body : SubmitResponseBody) (c : Nat) (reason : String),
      400 ≤ c → ¬(c = 401 ∨ c = 403) →
      ∃ e, post_export_request (.resp c reason body) = .error e ∧
        specClassify e = some (.ApiError c reason)) ∧
    (∀ m, post_export_request (.fault m) = .error (.transportError m) ∧
      specClassify (.transportError m) = some (.TransportError m)) := by
  refine ⟨?_, ?_, ?_, fun m => ⟨rfl, rfl⟩⟩
  · intro body c reason hid h2 h3 hbid
    have hlt : ¬ 400 ≤ c := by omega
    simp [post_export_request, raise_for_status, hlt, hbid]
  · intro body c reason hc
    have h4 : 400 ≤ c := by rcases hc with rfl | rfl <;> omega
    exact ⟨.clientResponseError c reason,
      by simp [post_export_request, raise_for_status, h4],
      by simp [specClassify, hc]⟩
  · intro body c reason h4 hne
    exact ⟨.clientResponseError c reason,
      by simp [post_export_request, raise_for_status, h4],
      by simp [specClassify, hne]⟩

/-- Witness for C8 at concrete inputs: a 200 response with id E1, a
401 response, a 500 response, and a connection fault. -/
theorem submit_handle_and_error_taxonomy_witness :
    post_export_request (.resp 200 "OK" ⟨some "E1"⟩) = .ok "E1" ∧
    (∃ e, post_export_request (.resp 401 "Unauthorized" ⟨none⟩) = .error e ∧
      specClassify e = some .AuthError) ∧
    (∃ e, post_export_request (.resp 500 "ISE" ⟨none⟩) = .error e ∧
      specClassify e = some (.ApiError 500 "ISE")) ∧
    post_export_request (.fault "timeout") = .error (.transportError "timeout") := by
  refine ⟨?_, ?_, ?_, ?_⟩
  · exact submit_handle_and_error_taxonomy.1 ⟨some "E1"⟩ 200 "OK" "E1"
      (by decide) (by decide) rfl
  · exact submit_handle_and_error_taxonomy.2.1 ⟨none⟩ 401 "Unauthorized" (by decide)
  · exact submit_handle_and_error_taxonomy.2.2.1 ⟨none⟩ 500 "ISE" (by decide) (by decide)
  · exact (submit_handle_and_error_taxonomy.2.2.2 "timeout").1

/-- C9: every non-None value returned by poll_export_request is a
snapshot whose status field is exactly Succeeded or Failed, so the
attempt loop only ever interprets a terminal snapshot or the absent
(timeout) outcome. -/
theorem poll_handoff_only_terminal (polls : Nat → NetResult ExportStatus)
    (Tmin : Nat) (s : ExportStatus) (n : Nat)
    (h : poll_export_request polls Tmin = (.found s, n)) :
    s.status = ExportState.SUCCEEDED.value ∨ s.status = ExportState.FAILED.value := by
  have hterm := pollGo_found_terminal polls (Tmin * 60) (Tmin * 60 / 5 + 1) 0 s n h
  simp only [statusIsTerminal] at hterm
  exact of_decide_eq_true hterm

/-- Witness for C9: a poll oracle whose first fetch is terminal. -/
theorem poll_handoff_only_terminal_witness :
    poll_export_request pollsTerminalW 1 = (.found { status := "Succeeded" }, 1) ∧
    (ExportStatus.status { status := "Succeeded" } = ExportState.SUCCEEDED.value ∨
      ExportStatus.status { status := "Succeeded" } = ExportState.FAILED.value) := by
  have hp : poll_export_request pollsTerminalW 1 = (.found { status := "Succeeded" }, 1) :=
    by decide
  exact ⟨hp, poll_handoff_only_terminal pollsTerminalW 1 _ 1 hp⟩

/-- C6: in every iteration of the poll sub-loop, elapsed time is
re-checked against the timeout before each status fetch (at or past
the deadline no fetch is issued and the sub-loop yields the timeout
outcome); an in-window fetch returning a terminal state exits the
sub-loop with that snapshot; a non-terminal state is followed by a
fixed 5-second suspension, the next fetch happening 5 seconds later. -/
theorem poll_subloop_iteration_contract :
    (∀ (polls : Nat → NetResult ExportStatus) (T fuel i : Nat), ¬ 5 * i < T →
      pollGo polls T (fuel + 1) i = (.timedOut, i)) ∧
    (∀ (polls : Nat → NetResult ExportStatus) (T fuel i c : Nat)
      (reason : String) (s : ExportStatus), 5 * i < T →
      polls i = .resp c reason s → c < 400 → statusIsTerminal s.status = true →
      pollGo polls T (fuel + 1) i = (.found s, i + 1)) ∧
    (∀ (polls : Nat → NetResult ExportStatus) (T fuel i c : Nat)
      (reason : String) (s : ExportStatus), 5 * i < T →
      polls i = .resp c reason s → c < 400 → statusIsTerminal s.status = false →
      pollGo polls T (fuel + 1) i = pollGo polls T fuel (i + 1) ∧
      ∀ t0, pollFetchTime t0 (i + 1) = pollFetchTime t0 i + 5) := by
  refine ⟨pollGo_deadline, pollGo_terminal, ?_⟩
  intro polls T fuel i c reason s hT hp hc hs
  refine ⟨pollGo_nonterminal polls T fuel i c reason s hT hp hc hs, fun t0 => ?_⟩
  simp only [pollFetchTime]
  omega

/-- Witness for C6: the deadline clause at fetch index 12 of a
60-second window, the terminal clause at index 1 of pollsMixedW, and
the non-terminal clause at index 0. -/
theorem poll_subloop_iteration_contract_witness :
    pollGo pollsMixedW 60 (1 + 1) 12 = (.timedOut, 12) ∧
    pollGo pollsMixedW 60 (3 + 1) 1 = (.found { status := "Succeeded" }, 2) ∧
    pollGo pollsMixedW 60 (3 + 1) 0 = pollGo pollsMixedW 60 3 1 := by
  refine ⟨poll_subloop_iteration_contract.1 pollsMixedW 60 1 12 (by decide), ?_, ?_⟩
  · exact poll_subloop_iteration_contract.2.1 pollsMixedW 60 3 1 200 "OK" _
      (by decide) rfl (by decide) (by decide)
  · exact (poll_subloop_iteration_contract.2.2 pollsMixedW 60 3 0 200 "OK" _
      (by decide) rfl (by decide) (by decide)).1

/-- C1: evaluation of the code at the failing input. The claim (with
the spec) mandates that a poll sub-loop ending with no terminal
snapshot makes the operation report no result at once, with no further
submissions and no further status calls; in the code the membership
test `retryAfter in export` is evaluated with `export = None` and
raises `TypeError`, which is swallowed on the first two attempts (two
further submissions, 24 further status calls past the first deadline)
and propagated from the third, so the caller receives the exception
instead of the mandated immediate no-result. -/
theorem pure_timeout_raises_typeerror :
    (export_power_bi_report envTimeoutW 1).1 =
      .raised (.typeError "argument of type NoneType is not iterable") ∧
    countSubmits (export_power_bi_report envTimeoutW 1).2 = 3 ∧
    countStatusGets (export_power_bi_report envTimeoutW 1).2 = 36 := by
  decide

/-- C2: for every attempt whose terminal snapshot is Failed with a
retryAfter duration R and with attempts remaining, the run suspends
for R time units after the Failed fetch and the next submission is
stamped exactly R after it (hence at least R later); and across any
whole invocation the number of submissions never exceeds max_retries. -/
theorem failed_retryafter_delay_and_submission_bound :
    (∀ env Tmin, countSubmits (export_power_bi_report env Tmin).2 ≤ max_retries) ∧
    (∀ (env : Nat → AttemptEnv) (Tmin r a t : Nat) (eid : String)
      (s : ExportStatus) (n R : Nat),
      post_export_request (env a).submitNet = .ok eid →
      poll_export_request ((env a).polls eid) Tmin = (.found s, n) →
      s.status = ExportState.FAILED.value →
      s.retryAfter = some R →
      ∃ tl, (runAttempts env Tmin (r + 2) a t).2 =
        ⟨t, EvKind.submitPost⟩ :: (pollEvs t eid n ++
          ⟨t + 5 * (n - 1), EvKind.retrySleep R⟩ ::
            ⟨t + 5 * (n - 1) + R, EvKind.submitPost⟩ :: tl)) := by
  constructor
  · intro env Tmin
    exact runAttempts_countSubmits_le env Tmin max_retries 0 0
  · intro env Tmin r a t eid s n R hsub hpoll hst hra
    have hstep := attemptStep_failedRetry (env a) Tmin t eid s n R hsub hpoll hst hra
    have hrun := runAttempts_step_fall env Tmin (r + 1) a t _ _ hstep
    obtain ⟨tl2, hhead⟩ := runAttempts_head env Tmin r (a + 1) (t + 5 * (n - 1) + R)
    refine ⟨tl2, ?_⟩
    rw [show r + 2 = r + 1 + 1 from rfl, hrun, hhead]
    simp

/-- Witness for C2: an environment whose first attempt ends Failed
with retryAfter 7; the sleep and the next submission appear in the
trace 7 time units after the Failed fetch. -/
theorem failed_retryafter_delay_witness :
    post_export_request (envRetryW 0).submitNet = .ok "E1" ∧
    poll_export_request ((envRetryW 0).polls "E1") 1 = (.found stFailedRetry, 1) ∧
    ∃ tl, (runAttempts envRetryW 1 (0 + 2) 0 0).2 =
      ⟨0, EvKind.submitPost⟩ :: (pollEvs 0 "E1" 1 ++
        ⟨0 + 5 * (1 - 1), EvKind.retrySleep 7⟩ ::
          ⟨0 + 5 * (1 - 1) + 7, EvKind.submitPost⟩ :: tl) := by
  exact ⟨rfl, rfl, failed_retryafter_delay_and_submission_bound.2 envRetryW 1 0 0 0 "E1"
    stFailedRetry 1 7 rfl rfl rfl rfl⟩

/-- C3: when the first attempt ends with a Failed terminal snapshot
carrying no retryAfter, the invocation returns no result at once with
exactly one submission performed. -/
theorem failed_without_retryafter_returns_none
    (env : Nat → AttemptEnv) (Tmin : Nat) (eid : String) (s : ExportStatus) (n : Nat)
    (hsub : post_export_request (env 0).submitNet = .ok eid)
    (hpoll : poll_export_request ((env 0).polls eid) Tmin = (.found s, n))
    (hst : s.status = ExportState.FAILED.value)
    (hra : s.retryAfter = none) :
    (export_power_bi_report env Tmin).1 = .noResult ∧
    countSubmits (export_power_bi_report env Tmin).2 = 1 := by
  have hstep := attemptStep_failedFinal (env 0) Tmin 0 eid s n hsub hpoll hst hra
  have hrun := runAttempts_step_success env Tmin 2 0 0 _ _ hstep
  have hcount := attemptStep_countSubmits (env 0) Tmin 0
  rw [hstep] at hcount
  simp only [StepOut.evsA] at hcount
  refine ⟨?_, ?_⟩
  · show (runAttempts env Tmin (2 + 1) 0 0).1 = .noResult
    rw [hrun]
  · show countSubmits (runAttempts env Tmin (2 + 1) 0 0).2 = 1
    rw [hrun]
    exact hcount

/-- Witness for C3: a first poll returning Failed without retryAfter. -/
theorem failed_without_retryafter_witness :
    post_export_request (envFailedFinalW 0).submitNet = .ok "E1" ∧
    poll_export_request ((envFailedFinalW 0).polls "E1") 1 = (.found stFailedFinal, 1) ∧
    (export_power_bi_report envFailedFinalW 1).1 = .noResult ∧
    countSubmits (export_power_bi_report envFailedFinalW 1).2 = 1 := by
  have h := failed_without_retryafter_returns_none envFailedFinalW 1 "E1" stFailedFinal 1
    rfl rfl rfl rfl
  exact ⟨rfl, rfl, h.1, h.2⟩

/-- C4: a client-level exception caught on a non-final attempt is
swallowed — the run result is that of the remaining attempts and the
trace continues with a fresh submission; the same exception caught on
the final attempt propagates to the caller; and every status GET of an
attempt carries the handle returned by the submission of that same
attempt, so each retry polls a fresh handle. -/
theorem client_exception_swallowed_until_final :
    (∀ (env : Nat → AttemptEnv) (Tmin r a t : Nat) (exc : Exc)
      (evsA : List Ev) (t2 : Nat),
      attemptStep (env a) Tmin t = .excO exc evsA t2 →
      (runAttempts env Tmin (r + 2) a t).1 = (runAttempts env Tmin (r + 1) (a + 1) t2).1 ∧
      ∃ tl, (runAttempts env Tmin (r + 2) a t).2 =
        evsA ++ ⟨t2, EvKind.submitPost⟩ :: tl) ∧
    (∀ (env : Nat → AttemptEnv) (Tmin a t : Nat) (exc : Exc)
      (evsA : List Ev) (t2 : Nat),
      attemptStep (env a) Tmin t = .excO exc evsA t2 →
      runAttempts env Tmin 1 a t = (.raised exc, evsA)) ∧
    (∀ (e : AttemptEnv) (Tmin t : Nat) (eid : String),
      post_export_request e.submitNet = .ok eid →
      ∀ ev ∈ (attemptStep e Tmin t).evsA,
        ∀ x, ev.kind = EvKind.statusGet x → x = eid) := by
  refine ⟨?_, runAttempts_step_excO_last, attemptStep_statusGet_handle⟩
  intro env Tmin r a t exc evsA t2 h
  have hrun := runAttempts_step_excO_notlast env Tmin r a t exc evsA t2 h
  obtain ⟨tl2, hhead⟩ := runAttempts_head env Tmin r (a + 1) t2
  constructor
  · rw [hrun]
  · refine ⟨tl2, ?_⟩
    rw [hrun, hhead]

/-- Witness for C4: a connection fault on submission is swallowed with
one remaining attempt, propagates when it is the last attempt, and the
status GETs of an attempt of envRetryW all carry its own handle E1. -/
theorem client_exception_witness :
    attemptStep (envFaultW 0) 1 0 =
      .excO (.transportError "connection reset") [⟨0, .submitPost⟩] 0 ∧
    (runAttempts envFaultW 1 (0 + 2) 0 0).1 = (runAttempts envFaultW 1 (0 + 1) 1 0).1 ∧
    runAttempts envFaultW 1 1 0 0 =
      (.raised (.transportError "connection reset"), [⟨0, .submitPost⟩]) ∧
    ∀ ev ∈ (attemptStep (envRetryW 0) 1 0).evsA,
      ∀ x, ev.kind = EvKind.statusGet x → x = "E1" := by
  have hstep : attemptStep (envFaultW 0) 1 0 =
      .excO (.transportError "connection reset") [⟨0, .submitPost⟩] 0 := rfl
  refine ⟨hstep, ?_, ?_, ?_⟩
  · exact (client_exception_swallowed_until_final.1 envFaultW 1 0 0 0 _ _ _ hstep).1
  · exact client_exception_swallowed_until_final.2.1 envFaultW 1 0 0 _ _ _ hstep
  · exact client_exception_swallowed_until_final.2.2 (envRetryW 0) 1 0 "E1" rfl

/-- C5: for every invocation whose first attempt reaches a Succeeded
terminal snapshot with locator, name and extension and whose artifact
fetch succeeds, exactly one artifact GET is performed, against the
snapshot resource locator, and the returned filename is the name, a
dot, and the extension. -/
theorem successful_export_single_fetch_and_filename
    (env : Nat → AttemptEnv) (Tmin : Nat) (eid : String) (s : ExportStatus)
    (n c : Nat) (L nm ext reason : String) (bytes : List Nat)
    (hsub : post_export_request (env 0).submitNet = .ok eid)
    (hpoll : poll_export_request ((env 0).polls eid) Tmin = (.found s, n))
    (hst : s.status = ExportState.SUCCEEDED.value)
    (hL : s.resourceLocation = some L)
    (hnm : s.reportName = some nm)
    (hext : s.resourceFileExtension = some ext)
    (hart : (env 0).artifactNet = .resp c reason bytes) (hc : c < 400) :
    (export_power_bi_report env Tmin).1 = .artifact ⟨bytes, nm ++ "." ++ ext⟩ ∧
    artifactGets (export_power_bi_report env Tmin).2 =
      [⟨5 * (n - 1), .artifactGet L⟩] := by
  have hstep := attemptStep_succeeded (env 0) Tmin 0 eid s n c L nm ext reason bytes
    hsub hpoll hst hL hnm hext hart hc
  have hrun := runAttempts_step_success env Tmin 2 0 0 _ _ hstep
  refine ⟨?_, ?_⟩
  · show (runAttempts env Tmin (2 + 1) 0 0).1 = .artifact ⟨bytes, nm ++ "." ++ ext⟩
    rw [hrun]
  · show artifactGets (runAttempts env Tmin (2 + 1) 0 0).2 =
      [⟨5 * (n - 1), .artifactGet L⟩]
    rw [hrun]
    have h0 := artifactGets_pollEvs 0 eid n
    rw [artifactGets] at h0
    rw [artifactGets, List.filter_cons, List.filter_append, h0]
    simp [isArtifactGet]

/-- Witness for C5: the concrete scenario of section 8 of the spec —
first poll Pending, second poll Succeeded with locator L, name Sales,
extension png; one artifact GET to L and filename Sales.png. -/
theorem successful_export_witness :
    poll_export_request ((envSucceedW 0).polls "E1") 1 = (.found stSucceededW, 2) ∧
    (export_power_bi_report envSucceedW 1).1 = .artifact ⟨[7, 7], "Sales.png"⟩ ∧
    artifactGets (export_power_bi_report envSucceedW 1).2 =
      [⟨5, .artifactGet "L"⟩] := by
  have h := successful_export_single_fetch_and_filename envSucceedW 1 "E1" stSucceededW
    2 200 "L" "Sales" "png" "OK" [7, 7] rfl (by decide) rfl rfl rfl rfl rfl
    (by decide)
  exact ⟨by decide, h.1, h.2⟩

/-- C7: when every attempt ends Failed with a retryAfter (the only
exception-free continuing outcome), all attempts are consumed and the
invocation returns the no-result value, which is distinct from any
propagated exception value. -/
theorem exhausted_retries_return_none (env : Nat → AttemptEnv) (Tmin : Nat)
    (h : ∀ k, k < max_retries → attemptFailsRetryable (env k) Tmin) :
    (export_power_bi_report env Tmin).1 = .noResult ∧
    ∀ e, ExportResult.noResult ≠ ExportResult.raised e := by
  refine ⟨?_, fun e h2 => by cases h2⟩
  show (runAttempts env Tmin max_retries 0 0).1 = .noResult
  exact runAttempts_all_retryable_noResult env Tmin max_retries 0 0
    (fun k hk => by simpa using h k hk)

/-- Witness for C7: every attempt of envRetryW ends Failed with
retryAfter 7; the invocation returns no result. -/
theorem exhausted_retries_witness :
    (∀ k, k < max_retries → attemptFailsRetryable (envRetryW k) 1) ∧
    (export_power_bi_report envRetryW 1).1 = .noResult := by
  have hh : ∀ k, k < max_retries → attemptFailsRetryable (envRetryW k) 1 :=
    fun k _ => ⟨"E1", stFailedRetry, 1, 7, rfl, rfl, rfl, rfl⟩
  exact ⟨hh, (exhausted_retries_return_none envRetryW 1 hh).1⟩

end BiExporter
